import Mathlib

/-!
Verification of the fan-out/fan-in coordination layer of the
Processing_file_ISO_Piping repository.

The development shallowly embeds:

* the client-side Dashboard logic (WebSocket message handlers, localStorage
  session persistence, form validation) from `frontend/src/Dashboard.jsx`
  (the session-recovery revision shipped in the repository snapshot);
* the DynamoDB row layout of `ProcessResultsTable` from `infra/lib/stack.ts`
  together with the documented query pattern (partition key `session_id`,
  sort key `file_name`, sentinel `"meta"`);
* the dispatcher (`backend/src/process_handler.py`) and worker
  (`backend/src/worker_handler.py`) coordination logic.  Those two Python
  files are not part of the repository snapshot (only their infrastructure
  declarations, documentation and the client that talks to them are), so
  they are modelled from the specification, as marked on each definition.

JavaScript idioms are embedded explicitly: an absent / `undefined` field is
`Option.none`; the `x || d` default pattern is `truthyGetD` (it replaces
both absent and falsy values); `x !== undefined` guards are `Option.isSome`
matches.
-/

namespace Piping

/-- JS `x || d` for string-valued fields: absent and empty string both fall
back to the default. -/
def truthyGetD (o : Option String) (d : String) : String :=
  match o with
  | some s => if s = "" then d else s
  | none => d

/-- JS `x || 0` for numeric fields: absent falls back to `0` (a present `0`
is unchanged either way). -/
def numGetD (o : Option Nat) : Nat := o.getD 0

/-- JS string interpolation of a possibly-undefined numeric field. -/
def showOptNat (o : Option Nat) : String :=
  match o with
  | some n => toString n
  | none => "undefined"

/-- One entry of a `results[]` array as received over the wire
(`SYNC_STATE.results` entries and `MATCH_FOUND.data`); every field may be
absent. -/
structure RawResult where
  hole_code : Option String
  file_name : Option String
  status : Option String
  pdf_link : Option String
deriving DecidableEq, Repr

/-- One row of the client's results table (`Dashboard.jsx` `results` state;
the render-key `id` field is a wall-clock artefact and is not modelled). -/
structure ResultRow where
  holeCode : String
  fileName : String
  status : String
  pdfLink : String
deriving DecidableEq, Repr

/-- Formatting applied by the Dashboard when adding a wire result to the
results table: `item.field || ""` on each field. -/
def formatResult (r : RawResult) : ResultRow :=
  { holeCode := truthyGetD r.hole_code ""
    fileName := truthyGetD r.file_name ""
    status := truthyGetD r.status ""
    pdfLink := truthyGetD r.pdf_link "" }

/-- One entry of the Dashboard's live scan log (render key and wall-clock
timestamp not modelled). -/
structure LogEntry where
  fileName : String
  status : String
  holeCode : Option String
deriving DecidableEq, Repr

/-- Server-to-client WebSocket messages, as consumed by the Dashboard's
message switch.  Fields are optional because the handler guards each
access. -/
inductive ServerMsg where
  | started (message : Option String) (total_files : Option Nat)
      (session_id : Option String)
  | syncState (message : Option String) (total_files : Option Nat)
      (processed_count : Option Nat) (progress : Option Nat)
      (results : Option (List RawResult)) (status : Option String)
  | progressMsg (value : Option Nat) (processed : Option Nat)
      (total : Option Nat) (file_name : Option String)
  | matchFound (data : Option RawResult)
  | completeMsg (download_url : Option String) (message : Option String)
  | errorMsg (message : Option String)
deriving DecidableEq, Repr

/-- Client-to-server WebSocket messages sent by the Dashboard. -/
inductive ClientMsg where
  | startScan (drive_link : String) (target_hole_codes : List String)
  | reconnect (session_id : String)
deriving DecidableEq, Repr

/-- The Dashboard's React state relevant to session handling, plus the
`processing_session` localStorage cell (`storage`, raw JSON string;
`none` means the key is absent). -/
structure ClientState where
  googleDriveLink : String
  isProcessing : Bool
  progress : Nat
  processedFiles : Nat
  totalFiles : Nat
  results : List ResultRow
  downloadUrl : String
  statusMessage : String
  validationError : String
  currentSessionId : String
  liveScanLog : List LogEntry
  storage : Option String
deriving DecidableEq, Repr

/-- Serialization of the session pointer written to localStorage by the
STARTED handler (`JSON.stringify` of the session object). -/
def encodeStoredSession (sid driveLink timestamp : String) : String :=
  "\x7b\"session_id\":\"" ++ sid ++ "\",\"drive_link\":\"" ++ driveLink ++
    "\",\"timestamp\":\"" ++ timestamp ++ "\"\x7d"

/-- `clearSession` from `Dashboard.jsx`: removes the localStorage pointer and
resets the processing state. -/
def clearSession (st : ClientState) : ClientState :=
  { st with
    storage := none
    currentSessionId := ""
    isProcessing := false
    progress := 0
    processedFiles := 0
    totalFiles := 0
    results := []
    downloadUrl := ""
    liveScanLog := []
    statusMessage := "Session cleared" }

/-- SYNC_STATE step `if (data.total_files) setTotalFiles(data.total_files)`
(JS truthiness: absent and `0` are both skipped). -/
def applySyncTotal (total_files : Option Nat) (s : ClientState) : ClientState :=
  match total_files with
  | some n => if n ≠ 0 then { s with totalFiles := n } else s
  | none => s

/-- SYNC_STATE step
`if (data.processed_count !== undefined) setProcessedFiles(...)`. -/
def applySyncProcessed (processed_count : Option Nat) (s : ClientState) :
    ClientState :=
  match processed_count with
  | some n => { s with processedFiles := n }
  | none => s

/-- SYNC_STATE step `if (data.progress !== undefined) setProgress(...)`. -/
def applySyncProgress (progressField : Option Nat) (s : ClientState) :
    ClientState :=
  match progressField with
  | some n => { s with progress := n }
  | none => s

/-- SYNC_STATE step restoring the results array
(`if (data.results && Array.isArray(data.results)) setResults(...)`). -/
def applySyncResults (results : Option (List RawResult)) (s : ClientState) :
    ClientState :=
  match results with
  | some rs => { s with results := rs.map formatResult }
  | none => s

/-- SYNC_STATE step dispatching on `data.status || 'IN_PROGRESS'`. -/
def applySyncStatus (processed_count total_files : Option Nat)
    (statusField : Option String) (s : ClientState) : ClientState :=
  let statusValue := truthyGetD statusField "IN_PROGRESS"
  if statusValue = "IN_PROGRESS" then
    { s with
      isProcessing := true
      statusMessage := "Reconnected: Processing " ++
        showOptNat processed_count ++ "/" ++ showOptNat total_files ++
        " files" }
  else if statusValue = "COMPLETE" then
    { s with
      isProcessing := false
      progress := 100
      statusMessage := "Processing completed!" }
  else s

/-- The Dashboard's WebSocket message switch (the `useEffect` on
`lastMessage`).  `now` stands for `new Date().toISOString()` used when a
session pointer is written. -/
def handleServerMsg (now : String) (st : ClientState) (m : ServerMsg) :
    ClientState :=
  match m with
  | .started message total_files session_id =>
    let base :=
      { st with
        statusMessage := truthyGetD message "Processing started"
        isProcessing := true
        progress := 0
        results := []
        downloadUrl := ""
        liveScanLog := []
        validationError := "" }
    let base :=
      match total_files with
      | some n =>
        if n ≠ 0 then { base with totalFiles := n, processedFiles := 0 }
        else base
      | none => base
    (match session_id with
     | some sid =>
       if sid ≠ "" then
         { base with
           currentSessionId := sid
           storage := some (encodeStoredSession sid st.googleDriveLink now) }
       else base
     | none => base)
  | .syncState message total_files processed_count progressField results
      statusField =>
    applySyncStatus processed_count total_files statusField
      (applySyncResults results
        (applySyncProgress progressField
          (applySyncProcessed processed_count
            (applySyncTotal total_files
              { st with
                statusMessage := truthyGetD message "State synchronized" }))))
  | .progressMsg value processed total file_name =>
    let newProgress := numGetD value
    let newProcessed := numGetD processed
    let newTotal := numGetD total
    let s1 :=
      { st with
        progress := max st.progress newProgress
        processedFiles := max st.processedFiles newProcessed
        totalFiles := max st.totalFiles newTotal
        statusMessage := "Processing: " ++ toString newProcessed ++ "/" ++
          toString newTotal ++ " files" }
    (match file_name with
     | some f =>
       if f ≠ "" then
         { s1 with
           liveScanLog := ⟨f, "processing", none⟩ :: s1.liveScanLog.take 49 }
       else s1
     | none => s1)
  | .matchFound data =>
    let md := data.getD ⟨none, none, none, none⟩
    { st with
      results := st.results ++ [formatResult md]
      liveScanLog :=
        ⟨truthyGetD md.file_name "Unknown", "match_found", md.hole_code⟩ ::
          st.liveScanLog.take 49 }
  | .completeMsg download_url message =>
    let s1 :=
      { st with
        progress := 100
        isProcessing := false
        downloadUrl := truthyGetD download_url ""
        statusMessage := truthyGetD message "Processing completed successfully!" }
    clearSession s1
  | .errorMsg message =>
    { st with
      isProcessing := false
      statusMessage := "Error: " ++ truthyGetD message "Unknown error" }

/-- Parsed shape of a stored session pointer (`JSON.parse` result); the code
only reads these two fields, each of which may be absent. -/
structure StoredJson where
  session_id : Option String
  drive_link : Option String
deriving DecidableEq, Repr

/-- `loadSavedSession` from `Dashboard.jsx` (mount effect): reads the
`processing_session` localStorage cell, parses it, restores the form state
and, when the WebSocket is already open, sends a `reconnect`.  `parse`
stands for `JSON.parse` (returning `none` on a parse exception); the catch
branch removes the corrupt key.  Returns the new client state and the list
of messages sent. -/
def loadSavedSession (parse : String → Option StoredJson) (wsOpen : Bool)
    (st : ClientState) : ClientState × List ClientMsg :=
  match st.storage with
  | none => (st, [])
  | some raw =>
    match parse raw with
    | none => ({ st with storage := none }, [])
    | some sess =>
      let s1 :=
        match sess.drive_link with
        | some dl => if dl ≠ "" then { st with googleDriveLink := dl } else st
        | none => st
      match sess.session_id with
      | some sid =>
        if sid ≠ "" then
          let s2 := { s1 with currentSessionId := sid }
          if wsOpen then
            ({ s2 with statusMessage := "Reconnecting to session..." },
              [.reconnect sid])
          else (s2, [])
        else (s1, [])
      | none => (s1, [])

/-- Form state consulted by `handleStartProcessing` in `Dashboard.jsx`.
`driveLinkHostOk` models the `new URL(...)` parse plus the
`drive.google.com` hostname check (an environment primitive);
`hasExcelFile` models `excelFile` being non-null. -/
structure FormState where
  websocketUrl : String
  googleDriveLink : String
  driveLinkHostOk : Bool
  hasExcelFile : Bool
  targetHoleCodes : List String
  shouldConnect : Bool
  wsOpen : Bool
  validationError : String
  statusMessage : String
deriving DecidableEq, Repr

/-- `handleStartProcessing` from `Dashboard.jsx`: the validation chain run
when the user clicks Start Scan.  Returns the new form state and the
`start_scan` message if one is sent. -/
def handleStartProcessing (f : FormState) : FormState × Option ClientMsg :=
  let f := { f with validationError := "" }
  if f.websocketUrl = "" then
    ({ f with validationError :=
        "WebSocket URL is not configured. Please set VITE_WEBSOCKET_URL in your .env file." },
      none)
  else if f.googleDriveLink = "" then
    ({ f with validationError := "Please enter a Google Drive Link" }, none)
  else if ¬ f.driveLinkHostOk then
    ({ f with validationError :=
        "Please enter a valid Google Drive URL (must be from drive.google.com)" },
      none)
  else if ¬ f.hasExcelFile ∨ f.targetHoleCodes.isEmpty then
    ({ f with validationError :=
        "Please upload an Excel file with target hole codes" }, none)
  else if ¬ f.shouldConnect then
    ({ f with
        shouldConnect := true
        statusMessage := "Request sent, waiting for response..." },
      some (.startScan f.googleDriveLink f.targetHoleCodes))
  else if f.wsOpen then
    ({ f with statusMessage := "Request sent, waiting for response..." },
      some (.startScan f.googleDriveLink f.targetHoleCodes))
  else
    ({ f with validationError := "WebSocket is not connected. Please wait..." },
      none)

/-! ## Session store row layout

From `infra/lib/stack.ts` (`ProcessResultsTable`: partition key `session_id`,
sort key `file_name`, both strings) and the documented item shapes and query
pattern (meta item under the sort-key sentinel `"meta"`, one result item per
file name; query all items of a session by `session_id`, filter
`file_name != 'meta'` for results). -/

/-- Attribute payload of a `ProcessResultsTable` row: either the session
metadata item or a per-file result item. -/
inductive RowData where
  | meta (connection_id : String) (total_files : Nat) (processed_count : Nat)
      (target_hole_codes : List String) (status : String)
  | result (status : String) (found_codes : List String) (pdf_link : String)
deriving DecidableEq, Repr

/-- Whether a payload is the session-metadata shape. -/
def RowData.isMeta : RowData → Bool
  | .meta .. => true
  | .result .. => false

/-- One `ProcessResultsTable` row, keyed by the composite key
`(session_id, file_name)`. -/
structure Row where
  session_id : String
  file_name : String
  data : RowData
deriving DecidableEq, Repr

/-- A `ProcessResultsTable` contents snapshot. -/
abbrev Table := List Row

/-- The single range query per session:
`KeyConditionExpression='session_id = :sid'`. -/
def queryBySession (sid : String) (t : Table) : List Row :=
  t.filter (fun r => r.session_id == sid)

/-- Selecting result rows from a row list: `file_name != 'meta'`. -/
def resultRows (rows : List Row) : List Row :=
  rows.filter (fun r => r.file_name != "meta")

/-- Selecting metadata rows from a row list: `file_name == 'meta'`. -/
def metaRows (rows : List Row) : List Row :=
  rows.filter (fun r => r.file_name == "meta")

/-- A table respects the sentinel convention: a row carries the metadata
payload exactly when its sort key is the sentinel `"meta"`. -/
def WellFormedTable (t : Table) : Prop :=
  ∀ r, r ∈ t → (r.file_name = "meta" ↔ r.data.isMeta = true)

/-! ## Dispatcher

`backend/src/process_handler.py` is not part of the repository snapshot;
the dispatcher is modelled from the specification. -/

/-- A queue message as enqueued by the dispatcher (one work item per
message: `{session_id, file_name, target_hole_codes}`; the payload pointer
is not modelled). -/
structure QueueMsg where
  session_id : String
  file_name : String
  target_hole_codes : List String
deriving DecidableEq, Repr

/-- Dispatcher failure modes surfaced to the caller. -/
inductive DispatchErr where
  | emptyBatch
deriving DecidableEq, Repr

/-- Everything observable about one dispatcher invocation: the outcome
returned to the caller, the session store after the call, the queue
messages enqueued, and the notifications pushed to the client. -/
structure DispatchOut where
  outcome : Except DispatchErr String
  store : Table
  queued : List QueueMsg
  sent : List ServerMsg
deriving Repr

/-- Modelled from the spec: the Dispatcher contract
`start(item_list, search_targets, connection_ref) -> session_id` of
`backend/src/process_handler.py`, which is missing from the snapshot.  It
rejects an empty item list with `EmptyBatch` (no session record written),
otherwise writes the session metadata row with `processed_count = 0` and
status `IN_PROGRESS`, enqueues one queue message per item, sends one
`STARTED{session_id, total_items}` notification and returns, with no item
processed (no result row written). -/
def dispatcherStart (sid conn : String) (items targets : List String)
    (store : Table) : DispatchOut :=
  if items.isEmpty then
    { outcome := .error .emptyBatch
      store := store
      queued := []
      sent := [.errorMsg (some "No PDF files found in the specified folder")] }
  else
    { outcome := .ok sid
      store := ⟨sid, "meta", .meta conn items.length 0 targets "IN_PROGRESS"⟩ :: store
      queued := items.map (fun f => ⟨sid, f, targets⟩)
      sent := [.started (some "Processing started") (some items.length) (some sid)] }

/-! ## Worker pool and completion detector

`backend/src/worker_handler.py` is not part of the repository snapshot;
the per-session coordination state machine is modelled from the
specification.  Per-session state only, matching the spec's scope (sessions
are independent; all cross-worker coordination goes through the session
store's atomic increment and conditional-update primitives). -/

/-- Session status enum. -/
inductive SessionStatus where
  | inProgress
  | complete
deriving DecidableEq, Repr

/-- The session-store state of one session, as seen through the store
primitives: the fixed total, the shared counter, the status field, the set
of item_refs that already have a ResultRecord (represented as a list of
keys), and the number of COMPLETE notifications emitted so far. -/
structure SessionState where
  total_files : Nat
  processed_count : Nat
  status : SessionStatus
  resultKeys : List String
  completeEmitted : Nat
deriving DecidableEq, Repr

/-- Modelled from the spec: the worker's per-item step of
`backend/src/worker_handler.py` (missing from the snapshot) — upsert the
ResultRecord keyed by `(session_id, item_ref)` and atomically increment
`processed_count`, skipping the increment (and leaving the record as the
idempotent overwrite) when this `item_ref` already has a ResultRecord. -/
def processItem (s : SessionState) (ref : String) : SessionState :=
  if ref ∈ s.resultKeys then s
  else
    { s with
      resultKeys := ref :: s.resultKeys
      processed_count := s.processed_count + 1 }

/-- Modelled from the spec: the completion detector of
`backend/src/worker_handler.py` (missing from the snapshot) — after its
increment a worker compares the returned count with the total and, when
they agree, attempts the conditional update flipping `status` from
IN_PROGRESS to COMPLETE; only a successful flip emits the COMPLETE
notification (performs finalization), a failed condition does nothing. -/
def tryFinalize (s : SessionState) : SessionState :=
  if s.status = .inProgress ∧ s.processed_count = s.total_files then
    { s with status := .complete, completeEmitted := s.completeEmitted + 1 }
  else s

/-- The session record as written by the dispatcher:
`processed_count = 0`, status IN_PROGRESS, no results, nothing emitted. -/
def initState (items : List String) : SessionState :=
  { total_files := items.length
    processed_count := 0
    status := .inProgress
    resultKeys := []
    completeEmitted := 0 }

/-- One step of the worker pool on a session whose dispatched item list is
`items`: some worker processes one delivered item (at-least-once delivery:
any item may be delivered again at any time), or some worker runs the
completion check. -/
inductive SessionStep (items : List String) :
    SessionState → SessionState → Prop where
  | item {s : SessionState} {ref : String} (href : ref ∈ items) :
      SessionStep items s (processItem s ref)
  | finalize {s : SessionState} :
      SessionStep items s (tryFinalize s)

/-- States of a session reachable from its creation by any interleaving of
worker steps. -/
inductive Reachable (items : List String) : SessionState → Prop where
  | init : Reachable items (initState items)
  | step {s s' : SessionState} :
      Reachable items s → SessionStep items s s' → Reachable items s'

/-- Processing one delivered queue group: the worker handles each item of
the group in order. -/
def processGroup (s : SessionState) (group : List String) : SessionState :=
  group.foldl processItem s

/-- The coordination invariant tying the counter to the result records and
the emitted COMPLETE notifications to the status flag. -/
def SessionInv (items : List String) (s : SessionState) : Prop :=
  s.total_files = items.length ∧
  s.resultKeys.Nodup ∧
  (∀ r, r ∈ s.resultKeys → r ∈ items) ∧
  s.processed_count = s.resultKeys.length ∧
  s.completeEmitted = (match s.status with
    | .complete => 1
    | .inProgress => 0)

/-! ## Invariant lemmas for the session state machine -/

theorem sessionInv_init (items : List String) :
    SessionInv items (initState items) := by
  refine ⟨rfl, List.nodup_nil, ?_, rfl, rfl⟩
  intro r hr
  exact absurd hr (List.not_mem_nil r)

theorem sessionInv_processItem {items : List String} {s : SessionState}
    {ref : String} (hinv : SessionInv items s) (href : ref ∈ items) :
    SessionInv items (processItem s ref) := by
  obtain ⟨htot, hnd, hsub, hcnt, hcomp⟩ := hinv
  unfold processItem
  by_cases hmem : ref ∈ s.resultKeys
  · simp only [if_pos hmem]
    exact ⟨htot, hnd, hsub, hcnt, hcomp⟩
  · simp only [if_neg hmem]
    refine ⟨htot, List.nodup_cons.mpr ⟨hmem, hnd⟩, ?_, ?_, hcomp⟩
    · intro r hr
      rcases List.mem_cons.mp hr with h | h
      · exact h ▸ href
      · exact hsub r h
    · simp [hcnt]

theorem sessionInv_tryFinalize {items : List String} {s : SessionState}
    (hinv : SessionInv items s) : SessionInv items (tryFinalize s) := by
  obtain ⟨htot, hnd, hsub, hcnt, hcomp⟩ := hinv
  unfold tryFinalize
  by_cases hcond : s.status = .inProgress ∧ s.processed_count = s.total_files
  · simp only [if_pos hcond]
    refine ⟨htot, hnd, hsub, hcnt, ?_⟩
    simp only []
    rw [hcomp, hcond.1]
  · simp only [if_neg hcond]
    exact ⟨htot, hnd, hsub, hcnt, hcomp⟩

theorem sessionInv_step {items : List String} {s s' : SessionState}
    (hinv : SessionInv items s) (hstep : SessionStep items s s') :
    SessionInv items s' := by
  cases hstep with
  | item href => exact sessionInv_processItem hinv href
  | finalize => exact sessionInv_tryFinalize hinv

theorem reachable_inv {items : List String} {s : SessionState}
    (h : Reachable items s) : SessionInv items s := by
  induction h with
  | init => exact sessionInv_init items
  | step _ hstep ih => exact sessionInv_step ih hstep

theorem sessionInv_count_le {items : List String} {s : SessionState}
    (hinv : SessionInv items s) : s.processed_count ≤ s.total_files := by
  obtain ⟨htot, hnd, hsub, hcnt, -⟩ := hinv
  rw [hcnt, htot]
  exact (List.Nodup.subperm hnd (fun r hr => hsub r hr)).length_le

theorem processItem_count_mono (s : SessionState) (ref : String) :
    s.processed_count ≤ (processItem s ref).processed_count := by
  unfold processItem
  by_cases hmem : ref ∈ s.resultKeys
  · simp [hmem]
  · simp [hmem]

theorem tryFinalize_count_eq (s : SessionState) :
    (tryFinalize s).processed_count = s.processed_count := by
  unfold tryFinalize
  by_cases hcond : s.status = .inProgress ∧ s.processed_count = s.total_files
  · simp [hcond]
  · simp [hcond]

theorem sessionStep_count_mono {items : List String} {s s' : SessionState}
    (hstep : SessionStep items s s') :
    s.processed_count ≤ s'.processed_count := by
  cases hstep with
  | item _ => exact processItem_count_mono ..
  | finalize => exact (tryFinalize_count_eq _).ge

/-! ## Result-record lemmas for redelivery idempotence -/

theorem mem_resultKeys_processItem {s : SessionState} {r : String}
    (ref : String) (h : r ∈ s.resultKeys) :
    r ∈ (processItem s ref).resultKeys := by
  unfold processItem
  by_cases hmem : ref ∈ s.resultKeys
  · simpa [hmem]
  · simp only [if_neg hmem]
    exact List.mem_cons_of_mem ref h

theorem mem_resultKeys_processItem_self (s : SessionState) (ref : String) :
    ref ∈ (processItem s ref).resultKeys := by
  unfold processItem
  by_cases hmem : ref ∈ s.resultKeys
  · simp [hmem]
  · simp only [if_neg hmem]
    exact List.mem_cons_self ref s.resultKeys

theorem mem_resultKeys_processGroup_of_mem {s : SessionState} {r : String}
    (group : List String) (h : r ∈ s.resultKeys) :
    r ∈ (processGroup s group).resultKeys := by
  induction group generalizing s with
  | nil => exact h
  | cons a tl ih =>
    exact ih (mem_resultKeys_processItem a h)

theorem mem_resultKeys_processGroup {s : SessionState} {r : String}
    {group : List String} (h : r ∈ group) :
    r ∈ (processGroup s group).resultKeys := by
  induction group generalizing s with
  | nil => exact absurd h (List.not_mem_nil r)
  | cons a tl ih =>
    rcases List.mem_cons.mp h with h | h
    · subst h
      exact mem_resultKeys_processGroup_of_mem tl
        (mem_resultKeys_processItem_self s r)
    · exact ih h

theorem processItem_eq_of_mem {s : SessionState} {ref : String}
    (h : ref ∈ s.resultKeys) : processItem s ref = s := by
  unfold processItem
  simp [h]

theorem processGroup_eq_of_subset {s : SessionState} {group : List String}
    (h : ∀ r, r ∈ group → r ∈ s.resultKeys) : processGroup s group = s := by
  induction group generalizing s with
  | nil => rfl
  | cons a tl ih =>
    have ha : processItem s a = s :=
      processItem_eq_of_mem (h a (List.mem_cons_self a tl))
    show processGroup (processItem s a) tl = s
    rw [ha]
    exact ih (fun r hr => h r (List.mem_cons_of_mem a hr))

/-! ## Claim theorems -/

/-- C1: in every reachable state of a session — hence for every pair of
concurrent workers that observe the counter reach the total — at most one
COMPLETE notification has been emitted (equivalently, at most one worker has
performed finalization), because `tryFinalize`'s conditional update succeeds
only from IN_PROGRESS and COMPLETE is terminal. -/
theorem complete_fires_at_most_once (items : List String) (s : SessionState)
    (h : Reachable items s) : s.completeEmitted ≤ 1 := by
  have hinv := reachable_inv h
  obtain ⟨-, -, -, -, hcomp⟩ := hinv
  rw [hcomp]
  cases s.status <;> simp

/-- Witness for C1: a one-item session where the item is processed and two
workers then race through the completion check; only one COMPLETE is
emitted. -/
theorem complete_fires_at_most_once_witness :
    (tryFinalize (tryFinalize (processItem (initState ["a.pdf"]) "a.pdf"))).completeEmitted ≤ 1 :=
  complete_fires_at_most_once ["a.pdf"] _
    (.step (.step (.step .init (.item (by decide))) .finalize) .finalize)

/-- C2: `processed_count` starts at 0 at session creation, never exceeds
`total_items` in any reachable state, and is non-decreasing under every
step of the worker pool. -/
theorem processed_count_monotone_bounded (items : List String) :
    (initState items).processed_count = 0 ∧
    (∀ s : SessionState, Reachable items s →
      s.processed_count ≤ s.total_files) ∧
    (∀ s s' : SessionState, SessionStep items s s' →
      s.processed_count ≤ s'.processed_count) := by
  refine ⟨rfl, ?_, ?_⟩
  · intro s hs
    exact sessionInv_count_le (reachable_inv hs)
  · intro s s' hstep
    exact sessionStep_count_mono hstep

/-- Witness for C2: after processing one item of a two-item session the
counter is within the total and did not decrease. -/
theorem processed_count_monotone_bounded_witness :
    (processItem (initState ["a.pdf", "b.pdf"]) "a.pdf").processed_count ≤
      (processItem (initState ["a.pdf", "b.pdf"]) "a.pdf").total_files ∧
    (initState ["a.pdf", "b.pdf"]).processed_count ≤
      (processItem (initState ["a.pdf", "b.pdf"]) "a.pdf").processed_count :=
  ⟨(processed_count_monotone_bounded ["a.pdf", "b.pdf"]).2.1 _
      (.step .init (.item (by decide))),
    (processed_count_monotone_bounded ["a.pdf", "b.pdf"]).2.2 _ _
      (.item (by decide))⟩

/-- C3: redelivering the same queue message (group of work items) is
idempotent — reprocessing a group whose items all already have
ResultRecords skips every increment, so the second delivery leaves the
session state (in particular `processed_count`) exactly where the first
left it. -/
theorem redelivery_idempotent (s : SessionState) (group : List String) :
    processGroup (processGroup s group) group = processGroup s group :=
  processGroup_eq_of_subset (fun _ hr => mem_resultKeys_processGroup hr)

/-- A sample Dashboard state used by concrete witnesses: mid-session, 55 of
100 files displayed, a persisted session pointer present. -/
def exSt : ClientState :=
  { googleDriveLink := "https://drive.google.com/drive/folders/abc"
    isProcessing := true
    progress := 55
    processedFiles := 55
    totalFiles := 100
    results := []
    downloadUrl := ""
    statusMessage := ""
    validationError := ""
    currentSessionId := "sess-1"
    liveScanLog := []
    storage := some "ptr" }

theorem handle_progress_fields (now : String) (st : ClientState)
    (value processed total : Option Nat) (file_name : Option String) :
    (handleServerMsg now st
        (.progressMsg value processed total file_name)).progress =
      max st.progress (numGetD value) ∧
    (handleServerMsg now st
        (.progressMsg value processed total file_name)).processedFiles =
      max st.processedFiles (numGetD processed) ∧
    (handleServerMsg now st
        (.progressMsg value processed total file_name)).totalFiles =
      max st.totalFiles (numGetD total) := by
  cases file_name with
  | none => exact ⟨rfl, rfl, rfl⟩
  | some f =>
    by_cases hf : f = "" <;> simp [handleServerMsg, hf]

/-- C4: the Dashboard's PROGRESS handler treats `processed` and `value`
(percent) as a high-water mark: the displayed values never decrease, and a
message carrying values no larger than the ones already displayed leaves
the display unchanged. -/
theorem progress_high_water_mark (now : String) (st : ClientState)
    (value processed total : Option Nat) (file_name : Option String) :
    st.progress ≤ (handleServerMsg now st
        (.progressMsg value processed total file_name)).progress ∧
    st.processedFiles ≤ (handleServerMsg now st
        (.progressMsg value processed total file_name)).processedFiles ∧
    (numGetD value ≤ st.progress →
      (handleServerMsg now st
          (.progressMsg value processed total file_name)).progress =
        st.progress) ∧
    (numGetD processed ≤ st.processedFiles →
      (handleServerMsg now st
          (.progressMsg value processed total file_name)).processedFiles =
        st.processedFiles) := by
  obtain ⟨h1, h2, -⟩ :=
    handle_progress_fields now st value processed total file_name
  refine ⟨?_, ?_, ?_, ?_⟩
  · rw [h1]; exact Nat.le_max_left ..
  · rw [h2]; exact Nat.le_max_left ..
  · intro hle
    rw [h1]
    exact Nat.max_eq_left hle
  · intro hle
    rw [h2]
    exact Nat.max_eq_left hle

/-- Witness for C4: a state displaying 55 processed receives a late
PROGRESS with `processed=40`; the display stays at 55. -/
theorem progress_high_water_mark_witness :
    numGetD (some 40) ≤ exSt.processedFiles ∧
    (handleServerMsg "t0" exSt
        (.progressMsg (some 40) (some 40) (some 100) none)).processedFiles =
      exSt.processedFiles :=
  ⟨by decide,
    (progress_high_water_mark "t0" exSt (some 40) (some 40) (some 100)
        none).2.2.2 (by decide)⟩

/-- C5 counterexample: the SYNC_STATE handler is not an unconditional
replacement.  A SYNC_STATE carrying `total_files = 0` leaves the displayed
total at its old value (the handler guards the assignment with JS
truthiness), and a SYNC_STATE whose status is COMPLETE forces the displayed
progress to 100 instead of the carried percent (here 40). -/
theorem syncState_not_exact_replacement :
    (handleServerMsg "t0" exSt
        (.syncState none (some 0) (some 1) (some 40) (some [])
          (some "COMPLETE"))).totalFiles = 100 ∧
    (handleServerMsg "t0" exSt
        (.syncState none (some 0) (some 1) (some 40) (some [])
          (some "COMPLETE"))).progress = 100 := by
  decide

/-- C5 amended: applying one SYNC_STATE message carrying
`total_files` (nonzero), `processed_count`, `progress`, `results` and a
status of IN_PROGRESS or COMPLETE replaces the client's processed count and
results list with exactly the carried values and the total with the carried
total, independent of all previous state (including higher
previously-displayed values) and without touching the persisted session
pointer; the progress percent is set to the carried value when the status
is IN_PROGRESS and forced to 100 when it is COMPLETE, and the
in-progress flag follows the carried status. -/
theorem syncState_replaces_state (now : String) (st : ClientState)
    (msg : Option String) (tf pc pr : Nat) (rs : List RawResult) (sv : String)
    (htf : tf ≠ 0) (hsv : sv = "IN_PROGRESS" ∨ sv = "COMPLETE") :
    (handleServerMsg now st (.syncState msg (some tf) (some pc) (some pr)
        (some rs) (some sv))).totalFiles = tf ∧
    (handleServerMsg now st (.syncState msg (some tf) (some pc) (some pr)
        (some rs) (some sv))).processedFiles = pc ∧
    (handleServerMsg now st (.syncState msg (some tf) (some pc) (some pr)
        (some rs) (some sv))).results = rs.map formatResult ∧
    (handleServerMsg now st (.syncState msg (some tf) (some pc) (some pr)
        (some rs) (some sv))).progress =
      (if sv = "COMPLETE" then 100 else pr) ∧
    (handleServerMsg now st (.syncState msg (some tf) (some pc) (some pr)
        (some rs) (some sv))).isProcessing =
      (if sv = "IN_PROGRESS" then true else false) ∧
    (handleServerMsg now st (.syncState msg (some tf) (some pc) (some pr)
        (some rs) (some sv))).storage = st.storage := by
  rcases hsv with h | h <;> subst h <;>
    simp [handleServerMsg, applySyncStatus, applySyncResults, applySyncProgress,
      applySyncProcessed, applySyncTotal, truthyGetD, htf]

/-- Witness for C5 (amended): a client that previously displayed 55/100
applies a SYNC_STATE carrying 1 of 2 and ends up displaying exactly 1 of 2
at 50 percent. -/
theorem syncState_replaces_state_witness :
    (2 : Nat) ≠ 0 ∧
    (handleServerMsg "t0" exSt
        (.syncState none (some 2) (some 1) (some 50) (some [])
          (some "IN_PROGRESS"))).processedFiles = 1 ∧
    (handleServerMsg "t0" exSt
        (.syncState none (some 2) (some 1) (some 50) (some [])
          (some "IN_PROGRESS"))).totalFiles = 2 ∧
    (handleServerMsg "t0" exSt
        (.syncState none (some 2) (some 1) (some 50) (some [])
          (some "IN_PROGRESS"))).progress = 50 := by
  have h := syncState_replaces_state "t0" exSt none 2 1 50 [] "IN_PROGRESS"
    (by decide) (Or.inl rfl)
  exact ⟨by decide, h.2.1, h.1, by rw [h.2.2.2.1]; decide⟩

theorem applySyncTotal_storage (tf : Option Nat) (s : ClientState) :
    (applySyncTotal tf s).storage = s.storage := by
  cases tf with
  | none => rfl
  | some n => by_cases hn : n = 0 <;> simp [applySyncTotal, hn]

theorem applySyncProcessed_storage (pc : Option Nat) (s : ClientState) :
    (applySyncProcessed pc s).storage = s.storage := by
  cases pc <;> rfl

theorem applySyncProgress_storage (pr : Option Nat) (s : ClientState) :
    (applySyncProgress pr s).storage = s.storage := by
  cases pr <;> rfl

theorem applySyncResults_storage (rs : Option (List RawResult))
    (s : ClientState) : (applySyncResults rs s).storage = s.storage := by
  cases rs <;> rfl

theorem applySyncStatus_storage (pc tf : Option Nat) (sv : Option String)
    (s : ClientState) : (applySyncStatus pc tf sv s).storage = s.storage := by
  simp only [applySyncStatus]
  (repeat' split) <;> rfl

/-- C6 counterexample: applying a SYNC_STATE whose status is COMPLETE does
NOT remove the persisted session pointer — the SYNC_STATE handler never
touches localStorage, so the pointer survives. -/
theorem sync_complete_keeps_pointer :
    (handleServerMsg "t0" exSt
        (.syncState none (some 100) (some 100) (some 100) (some [])
          (some "COMPLETE"))).storage = some "ptr" := by
  decide

/-- C6 amended: the client persists `{session_id, drive_link, timestamp}`
when a STARTED carrying a session id arrives, and the persisted pointer is
removed exactly when a COMPLETE message is received, the user explicitly
clears the session, or the saved pointer fails to parse on page load — in
no other case; in particular applying a SYNC_STATE (whatever its status)
and the PROGRESS/MATCH_FOUND/ERROR handlers leave the pointer untouched,
as does a successfully-parsed load. -/
theorem session_pointer_lifecycle (now : String) (st : ClientState) :
    (∀ m tf sid, sid ≠ "" →
      (handleServerMsg now st (.started m tf (some sid))).storage =
        some (encodeStoredSession sid st.googleDriveLink now)) ∧
    (∀ dl m, (handleServerMsg now st (.completeMsg dl m)).storage = none) ∧
    (clearSession st).storage = none ∧
    (∀ m tf pc pr rs sv,
      (handleServerMsg now st (.syncState m tf pc pr rs sv)).storage =
        st.storage) ∧
    (∀ v p t f,
      (handleServerMsg now st (.progressMsg v p t f)).storage = st.storage) ∧
    (∀ d, (handleServerMsg now st (.matchFound d)).storage = st.storage) ∧
    (∀ m, (handleServerMsg now st (.errorMsg m)).storage = st.storage) ∧
    (∀ parse raw wsOpen, parse raw = none →
      loadSavedSession parse wsOpen { st with storage := some raw } =
        ({ st with storage := none }, [])) ∧
    (∀ (parse : String → Option StoredJson) raw sess wsOpen,
      parse raw = some sess →
      (loadSavedSession parse wsOpen
          { st with storage := some raw }).1.storage = some raw) := by
  refine ⟨?_, ?_, rfl, ?_, ?_, ?_, ?_, ?_, ?_⟩
  · intro m tf sid hsid
    cases tf with
    | none => simp [handleServerMsg, hsid]
    | some n => by_cases hn : n = 0 <;> simp [handleServerMsg, hsid, hn]
  · intro dl m
    rfl
  · intro m tf pc pr rs sv
    simp only [handleServerMsg, applySyncStatus_storage,
      applySyncResults_storage, applySyncProgress_storage,
      applySyncProcessed_storage, applySyncTotal_storage]
  · intro v p t f
    cases f with
    | none => rfl
    | some s => by_cases hs : s = "" <;> simp [handleServerMsg, hs]
  · intro d
    rfl
  · intro m
    rfl
  · intro parse raw wsOpen hp
    simp [loadSavedSession, hp]
  · intro parse raw sess wsOpen hp
    simp only [loadSavedSession, hp]
    cases hdl : sess.drive_link with
    | none =>
      cases hsid : sess.session_id with
      | none => rfl
      | some sid =>
        by_cases h : sid = "" <;> cases wsOpen <;> simp [h]
    | some dl =>
      by_cases hdl2 : dl = "" <;>
        cases hsid : sess.session_id with
        | none => simp [hdl2]
        | some sid =>
          by_cases h : sid = "" <;> cases wsOpen <;> simp [h, hdl2]

/-- Witness for C6 (amended): on the sample state, a COMPLETE message
removes the pointer, a COMPLETE-status SYNC_STATE leaves it in place, and a
corrupt pointer is removed at load without any message being sent. -/
theorem session_pointer_lifecycle_witness :
    (handleServerMsg "t0" exSt (.completeMsg (some "url") none)).storage =
      none ∧
    (handleServerMsg "t0" exSt
        (.syncState none (some 2) (some 2) (some 100) (some [])
          (some "COMPLETE"))).storage = exSt.storage ∧
    loadSavedSession (fun _ => none) true
        { exSt with storage := some "not-json" } =
      ({ exSt with storage := none }, []) :=
  ⟨(session_pointer_lifecycle "t0" exSt).2.1 (some "url") none,
    (session_pointer_lifecycle "t0" exSt).2.2.2.1 none (some 2) (some 2)
      (some 100) (some []) (some "COMPLETE"),
    (session_pointer_lifecycle "t0" exSt).2.2.2.2.2.2.2.1 (fun _ => none)
      "not-json" true rfl⟩

/-- C7: for every successful start call (non-empty item list) the
dispatcher reports success, sends exactly one STARTED notification carrying
both the session id and the total item count, and returns with no item
processed: the store gains no result row and the session record it writes
has `processed_count = 0`. -/
theorem dispatcher_started_immediate (sid conn : String)
    (items targets : List String) (store : Table) (hne : items ≠ []) :
    (dispatcherStart sid conn items targets store).outcome = .ok sid ∧
    (dispatcherStart sid conn items targets store).sent =
      [.started (some "Processing started") (some items.length) (some sid)] ∧
    resultRows (dispatcherStart sid conn items targets store).store =
      resultRows store ∧
    (⟨sid, "meta", .meta conn items.length 0 targets "IN_PROGRESS"⟩ : Row) ∈
      (dispatcherStart sid conn items targets store).store := by
  have hni : items.isEmpty = false := by
    cases items with
    | nil => exact absurd rfl hne
    | cons a l => rfl
  refine ⟨?_, ?_, ?_, ?_⟩ <;> simp [dispatcherStart, hni, resultRows]

/-- Witness for C7: a one-item session start sends STARTED with the session
id and the count 1. -/
theorem dispatcher_started_immediate_witness :
    (["a.pdf"] : List String) ≠ [] ∧
    (dispatcherStart "s1" "c1" ["a.pdf"] ["H-1"] []).sent =
      [.started (some "Processing started") (some 1) (some "s1")] :=
  ⟨by decide,
    (dispatcher_started_immediate "s1" "c1" ["a.pdf"] ["H-1"] []
        (by decide)).2.1⟩

/-- C8: a start request with an empty item list fails with `EmptyBatch` and
leaves the store unchanged (no Session record created) and the queue empty;
on the client side, the Dashboard's own validation refuses to send a
`start_scan` when the target-code list is empty. -/
theorem empty_batch_rejected :
    (∀ (sid conn : String) (targets : List String) (store : Table),
      (dispatcherStart sid conn [] targets store).outcome =
        .error .emptyBatch ∧
      (dispatcherStart sid conn [] targets store).store = store ∧
      (dispatcherStart sid conn [] targets store).queued = []) ∧
    (∀ f : FormState, f.websocketUrl ≠ "" → f.googleDriveLink ≠ "" →
      f.driveLinkHostOk = true → f.targetHoleCodes = [] →
      (handleStartProcessing f).2 = none ∧
      (handleStartProcessing f).1.validationError =
        "Please upload an Excel file with target hole codes") := by
  constructor
  · intro sid conn targets store
    exact ⟨rfl, rfl, rfl⟩
  · intro f h1 h2 h3 h4
    constructor <;> simp [handleStartProcessing, h1, h2, h3, h4]

/-- A sample filled-in form whose Excel upload produced no target codes. -/
def exForm : FormState :=
  { websocketUrl := "wss://example.execute-api.amazonaws.com/prod"
    googleDriveLink := "https://drive.google.com/drive/folders/abc"
    driveLinkHostOk := true
    hasExcelFile := true
    targetHoleCodes := []
    shouldConnect := true
    wsOpen := true
    validationError := ""
    statusMessage := "" }

/-- Witness for C8: the empty batch is rejected with the store unchanged,
and the sample form with no target codes sends nothing. -/
theorem empty_batch_rejected_witness :
    (dispatcherStart "s1" "c1" [] ["H-1"] []).outcome =
      Except.error .emptyBatch ∧
    (handleStartProcessing exForm).2 = none :=
  ⟨(empty_batch_rejected.1 "s1" "c1" ["H-1"] []).1,
    (empty_batch_rejected.2 exForm (by decide) (by decide) rfl rfl).1⟩

/-- C9: every row of the store is keyed by the composite key
`(session_id, file_name)` with the sentinel `"meta"` marking the session
record, and the single range query on `session_id` retrieves exactly the
rows of that session — which, in a well-formed table, partition by the
sentinel into the session metadata and all of its results. -/
theorem range_query_retrieves_session (sid : String) (t : Table)
    (hw : WellFormedTable t) :
    (∀ r : Row, r ∈ queryBySession sid t ↔ r ∈ t ∧ r.session_id = sid) ∧
    (∀ r : Row, r ∈ metaRows (queryBySession sid t) ↔
      (r ∈ t ∧ r.session_id = sid ∧ r.data.isMeta = true)) ∧
    (∀ r : Row, r ∈ resultRows (queryBySession sid t) ↔
      (r ∈ t ∧ r.session_id = sid ∧ r.data.isMeta = false)) := by
  have hq : ∀ r : Row, r ∈ queryBySession sid t ↔ r ∈ t ∧ r.session_id = sid := by
    intro r
    simp [queryBySession, List.mem_filter]
  refine ⟨hq, ?_, ?_⟩
  · intro r
    simp only [metaRows, List.mem_filter, hq, beq_iff_eq]
    constructor
    · rintro ⟨⟨hrt, hsid⟩, hmeta⟩
      exact ⟨hrt, hsid, (hw r hrt).mp hmeta⟩
    · rintro ⟨hrt, hsid, hmeta⟩
      exact ⟨⟨hrt, hsid⟩, (hw r hrt).mpr hmeta⟩
  · intro r
    simp only [resultRows, List.mem_filter, hq, bne_iff_ne, ne_eq]
    constructor
    · rintro ⟨⟨hrt, hsid⟩, hne2⟩
      refine ⟨hrt, hsid, ?_⟩
      cases hmeta : r.data.isMeta
      · rfl
      · exact absurd ((hw r hrt).mpr hmeta) hne2
    · rintro ⟨hrt, hsid, hfalse⟩
      refine ⟨⟨hrt, hsid⟩, ?_⟩
      intro heq
      rw [(hw r hrt).mp heq] at hfalse
      exact Bool.noConfusion hfalse

/-- A sample table holding one two-file session `s1` (meta plus one result
so far) and a second session `s2`. -/
def exTable : Table :=
  [⟨"s1", "meta", .meta "c1" 2 1 ["H-1"] "IN_PROGRESS"⟩,
    ⟨"s1", "a.pdf", .result "1 Code" ["H-1"] "link1"⟩,
    ⟨"s2", "meta", .meta "c2" 1 0 [] "IN_PROGRESS"⟩]

theorem exTable_wellFormed : WellFormedTable exTable := by
  intro r hr
  simp only [exTable, List.mem_cons, List.not_mem_nil, or_false] at hr
  rcases hr with rfl | rfl | rfl <;> simp [RowData.isMeta]

/-- Witness for C9: on the sample table, the range query for `s1` yields
both its metadata row and its result row. -/
theorem range_query_retrieves_session_witness :
    (⟨"s1", "a.pdf", .result "1 Code" ["H-1"] "link1"⟩ : Row) ∈
      resultRows (queryBySession "s1" exTable) ∧
    (⟨"s1", "meta", .meta "c1" 2 1 ["H-1"] "IN_PROGRESS"⟩ : Row) ∈
      metaRows (queryBySession "s1" exTable) :=
  ⟨((range_query_retrieves_session "s1" exTable exTable_wellFormed).2.2 _).mpr
      (by decide),
    ((range_query_retrieves_session "s1" exTable exTable_wellFormed).2.1 _).mpr
      (by decide)⟩

/-- C10: when the persisted session pointer fails to parse on page load,
the client deletes the corrupt pointer, sends no reconnect request, and is
otherwise left exactly as if no session had been saved. -/
theorem corrupt_pointer_discarded (parse : String → Option StoredJson)
    (wsOpen : Bool) (st : ClientState) (raw : String)
    (hp : parse raw = none) :
    loadSavedSession parse wsOpen { st with storage := some raw } =
      ({ st with storage := none }, []) := by
  simp [loadSavedSession, hp]

/-- Witness for C10: a stored string the parser rejects is removed on load
and nothing is sent. -/
theorem corrupt_pointer_discarded_witness :
    ((fun _ : String => (none : Option StoredJson)) "not-json") = none ∧
    loadSavedSession (fun _ => none) false
        { exSt with storage := some "not-json" } =
      ({ exSt with storage := none }, []) :=
  ⟨rfl, corrupt_pointer_discarded (fun _ => none) false exSt "not-json" rfl⟩

end Piping
